import Mathlib

/-!
# License server: formal model and verification

A shallow embedding of the license validation and activation engine of the
repository (FastAPI + SQLAlchemy variant in `app/`, Supabase REST variant in
`main.py`, CLI in `cli/`), together with proofs of the specified properties.

Python byte strings are modelled as `List Nat` (each element a byte value),
strings at the store level as Lean `String`, timestamps as `Int` seconds
(datetimes compare like their unix timestamps), and Python `None` as
`Option.none`.
-/

set_option maxRecDepth 100000

namespace LicenseServer

/-- A byte string: a list of byte values (each `< 256` for well-formed data). -/
abbrev Bytes := List Nat

/-! ## SHA-256 (`hashlib.sha256`), modelled from the algorithm the library
implements, at the byte level. -/

namespace Sha256

/-- Truncate to a 32-bit word. -/
def w32 (n : Nat) : Nat := n % 4294967296

/-- Right rotation of a 32-bit word. -/
def rotr (n x : Nat) : Nat := w32 ((x >>> n) ||| (x <<< (32 - n)))

def ch (x y z : Nat) : Nat := (x &&& y) ^^^ ((x ^^^ 4294967295) &&& z)

def maj (x y z : Nat) : Nat := (x &&& y) ^^^ (x &&& z) ^^^ (y &&& z)

def bigSigma0 (x : Nat) : Nat := rotr 2 x ^^^ rotr 13 x ^^^ rotr 22 x

def bigSigma1 (x : Nat) : Nat := rotr 6 x ^^^ rotr 11 x ^^^ rotr 25 x

def smallSigma0 (x : Nat) : Nat := rotr 7 x ^^^ rotr 18 x ^^^ (x >>> 3)

def smallSigma1 (x : Nat) : Nat := rotr 17 x ^^^ rotr 19 x ^^^ (x >>> 10)

/-- The 64 round constants (decimal). -/
def K : List Nat :=
  [1116352408, 1899447441, 3049323471, 3921009573, 961987163,
   1508970993, 2453635748, 2870763221, 3624381080, 310598401,
   607225278, 1426881987, 1925078388, 2162078206, 2614888103,
   3248222580, 3835390401, 4022224774, 264347078, 604807628,
   770255983, 1249150122, 1555081692, 1996064986, 2554220882,
   2821834349, 2952996808, 3210313671, 3336571891, 3584528711,
   113926993, 338241895, 666307205, 773529912, 1294757372,
   1396182291, 1695183700, 1986661051, 2177026350, 2456956037,
   2730485921, 2820302411, 3259730800, 3345764771, 3516065817,
   3600352804, 4094571909, 275423344, 430227734, 506948616,
   659060556, 883997877, 958139571, 1322822218, 1537002063,
   1747873779, 1955562222, 2024104815, 2227730452, 2361852424,
   2428436474, 2756734187, 3204031479, 3329325298]

/-- The working state / intermediate hash: eight 32-bit words. -/
structure Hash8 where
  a : Nat
  b : Nat
  c : Nat
  d : Nat
  e : Nat
  f : Nat
  g : Nat
  h : Nat
deriving Repr, DecidableEq

/-- One step of the message-schedule extension, on the schedule kept in
reverse order (head is the most recent word). -/
def scheduleStep (rws : List Nat) : List Nat :=
  w32 (smallSigma1 (rws.getD 1 0) + rws.getD 6 0 +
       smallSigma0 (rws.getD 14 0) + rws.getD 15 0) :: rws

/-- Extend a 16-word block to the full 64-word message schedule. -/
def buildSchedule (block : List Nat) : List Nat :=
  (scheduleStep^[48] block.reverse).reverse

/-- One compression round. -/
def round (st : Hash8) (kw : Nat × Nat) : Hash8 :=
  let t1 := w32 (st.h + bigSigma1 st.e + ch st.e st.f st.g + kw.1 + kw.2)
  let t2 := w32 (bigSigma0 st.a + maj st.a st.b st.c)
  ⟨w32 (t1 + t2), st.a, st.b, st.c, w32 (st.d + t1), st.e, st.f, st.g⟩

/-- Compress one 16-word block into the running hash. -/
def compress (st : Hash8) (block : List Nat) : Hash8 :=
  let fin := (K.zip (buildSchedule block)).foldl round st
  ⟨w32 (st.a + fin.a), w32 (st.b + fin.b), w32 (st.c + fin.c), w32 (st.d + fin.d),
   w32 (st.e + fin.e), w32 (st.f + fin.f), w32 (st.g + fin.g), w32 (st.h + fin.h)⟩

/-- Big-endian 32-bit words from bytes (complete 4-byte groups). -/
def bytesToWords : Bytes → List Nat
  | a :: b :: c :: d :: rest => (((a * 256 + b) * 256 + c) * 256 + d) :: bytesToWords rest
  | _ => []

/-- Big-endian 8-byte encoding of a length value. -/
def be8 (n : Nat) : Bytes :=
  [n / 72057594037927936 % 256, n / 281474976710656 % 256,
   n / 1099511627776 % 256, n / 4294967296 % 256,
   n / 16777216 % 256, n / 65536 % 256, n / 256 % 256, n % 256]

/-- SHA-256 padding: append `0x80`, zeros to 56 mod 64, then the bit length. -/
def pad (msg : Bytes) : Bytes :=
  msg ++ 128 :: List.replicate ((119 - msg.length % 64) % 64) 0 ++ be8 (8 * msg.length)

/-- Split into 64-byte chunks: structural recursion on a fuel bound (one
chunk consumes 64 bytes, so `l.length + 1` steps always suffice). -/
def chunks64Aux : Nat → Bytes → List Bytes
  | 0, _ => []
  | fuel + 1, l => if l = [] then [] else l.take 64 :: chunks64Aux fuel (l.drop 64)

def chunks64 (l : Bytes) : List Bytes := chunks64Aux (l.length + 1) l

/-- The initial hash value (decimal). -/
def initH : Hash8 :=
  ⟨1779033703, 3144134277, 1013904242, 2773480762,
   1359893119, 2600822924, 528734635, 1541459225⟩

/-- Big-endian bytes of a 32-bit word. -/
def wordBytes (n : Nat) : Bytes :=
  [n / 16777216 % 256, n / 65536 % 256, n / 256 % 256, n % 256]

/-- The SHA-256 digest of a byte string: 32 bytes. -/
def sha256 (msg : Bytes) : Bytes :=
  let st := ((chunks64 (pad msg)).map bytesToWords).foldl compress initH
  wordBytes st.a ++ wordBytes st.b ++ wordBytes st.c ++ wordBytes st.d ++
  wordBytes st.e ++ wordBytes st.f ++ wordBytes st.g ++ wordBytes st.h

end Sha256

/-! ## HMAC-SHA256 (`hmac.new(key, msg, hashlib.sha256).digest()`). -/

/-- HMAC-SHA256 of `msg` under `key`, per the `hmac` module (block size 64). -/
def hmacSha256 (key msg : Bytes) : Bytes :=
  let k0 := if 64 < key.length then Sha256.sha256 key else key
  let kp := k0 ++ List.replicate (64 - k0.length) 0
  Sha256.sha256 ((kp.map (fun b => b ^^^ 92)) ++
    Sha256.sha256 ((kp.map (fun b => b ^^^ 54)) ++ msg))

/-! ## URL-safe base64 (`base64.urlsafe_b64encode` / `urlsafe_b64decode`). -/

/-- The URL-safe base64 character for a sextet value. -/
def b64CharOfSextet (n : Nat) : Char :=
  if n < 26 then Char.ofNat (65 + n)
  else if n < 52 then Char.ofNat (97 + (n - 26))
  else if n < 62 then Char.ofNat (48 + (n - 52))
  else if n = 62 then '-' else '_'

/-- The sextet value of a base64 character.  `urlsafe_b64decode` translates
`-`/`_` to `+`/`/` and then decodes the standard alphabet, so both alphabets
are accepted. -/
def sextetOfB64Char (c : Char) : Option Nat :=
  if 'A' ≤ c ∧ c ≤ 'Z' then some (c.toNat - 65)
  else if 'a' ≤ c ∧ c ≤ 'z' then some (c.toNat - 97 + 26)
  else if '0' ≤ c ∧ c ≤ '9' then some (c.toNat - 48 + 52)
  else if c = '+' ∨ c = '-' then some 62
  else if c = '/' ∨ c = '_' then some 63
  else none

/-- `base64.urlsafe_b64encode`, producing the token characters: 3-byte groups
become 4 characters, with `=` padding on a short final group. -/
def b64EncodeList : Bytes → List Char
  | [] => []
  | [x] =>
    [b64CharOfSextet (x / 4), b64CharOfSextet (x % 4 * 16), '=', '=']
  | [x, y] =>
    [b64CharOfSextet (x / 4), b64CharOfSextet (x % 4 * 16 + y / 16),
     b64CharOfSextet (y % 16 * 4), '=']
  | x :: y :: z :: rest =>
    b64CharOfSextet (x / 4) :: b64CharOfSextet (x % 4 * 16 + y / 16) ::
    b64CharOfSextet (y % 16 * 4 + z / 64) :: b64CharOfSextet (z % 64) ::
    b64EncodeList rest

/-- Characters `binascii` keeps when decoding: alphabet characters and `=`. -/
def isB64Sym (c : Char) : Bool := (sextetOfB64Char c).isSome || c = '='

/-- Decode a filtered character stream quad by quad; `none` models the
`binascii.Error` raised on a malformed stream (for example on incorrect
padding).  Padding `=` is admitted only where `b64encode` places it: at the
tail of the final quad. -/
def b64DecodeQuads : List Char → Option Bytes
  | [] => some []
  | p :: q :: r :: s :: rest =>
    (sextetOfB64Char p).bind fun s1 =>
    (sextetOfB64Char q).bind fun s2 =>
    if r = '=' then
      if s = '=' then
        if rest = [] then some [s1 * 4 + s2 / 16] else none
      else none
    else
      (sextetOfB64Char r).bind fun s3 =>
      if s = '=' then
        if rest = [] then some [s1 * 4 + s2 / 16, s2 % 16 * 16 + s3 / 4]
        else none
      else
        (sextetOfB64Char s).bind fun s4 =>
        (b64DecodeQuads rest).bind fun tl =>
        some ((s1 * 4 + s2 / 16) :: (s2 % 16 * 16 + s3 / 4) ::
              (s3 % 4 * 64 + s4) :: tl)
  | _ => none

/-- `base64.urlsafe_b64decode` on a token string: non-alphabet characters are
discarded (legacy `binascii` behaviour), then the stream is decoded in quads;
`none` models a raised `binascii.Error`. -/
def urlsafe_b64decode (s : List Char) : Option Bytes :=
  b64DecodeQuads (s.filter isB64Sym)

/-! ## The token codec (`app/utils/crypto.py`). -/

/-- `bytes.rsplit(b"~", 1)`: split at the last occurrence of byte `126`
(`~`); `none` models the `ValueError` from unpacking when no separator
exists. -/
def rsplitTilde : Bytes → Option (Bytes × Bytes)
  | [] => none
  | x :: xs =>
    match rsplitTilde xs with
    | some (p, s) => some (x :: p, s)
    | none => if x = 126 then some ([], xs) else none

/-- `hmac.compare_digest` on byte strings: equality (the constant-time
aspect has no functional content). -/
def compare_digest (a b : Bytes) : Bool := a == b

/-- Decimal ASCII digits, structurally recursive on a fuel bound (each step
divides by 10, so `t + 1` steps always suffice). -/
def natDigitsAux : Nat → Nat → Bytes
  | 0, _ => []
  | fuel + 1, t =>
    if t < 10 then [48 + t] else natDigitsAux fuel (t / 10) ++ [48 + t % 10]

/-- Decimal ASCII digits of a natural number, as `str(int)` renders it. -/
def natDigits (t : Nat) : Bytes := natDigitsAux (t + 1) t

/-- The payload bytes `f"{license_key}|{device_id or ''}|{t}".encode()`:
strings are carried as their UTF-8 bytes, `|` is byte `124`, and a `None`
(or empty) device id contributes nothing. -/
def payloadBytes (license_key : Bytes) (device_id : Option Bytes) (t : Nat) : Bytes :=
  license_key ++ 124 :: (device_id.getD []) ++ 124 :: natDigits t

/-- `sign_activation` from `app/utils/crypto.py`: base64 of
`payload ++ b"~" ++ hmac` under the process secret.  The issuance time
`int(datetime.utcnow().timestamp())` is the explicit parameter `t`. -/
def sign_activation (secret license_key : Bytes) (device_id : Option Bytes)
    (t : Nat) : List Char :=
  b64EncodeList (payloadBytes license_key device_id t ++
    126 :: hmacSha256 secret (payloadBytes license_key device_id t))

/-- `verify_activation_token` from `app/utils/crypto.py`: decode, split at
the last `~`, recompute the HMAC over the prefix, compare with the suffix;
every failure path (the `except` clause) yields `false`. -/
def verify_activation_token (secret : Bytes) (token : List Char) : Bool :=
  match urlsafe_b64decode token with
  | none => false
  | some raw =>
    match rsplitTilde raw with
    | none => false
    | some (payload, sig) => compare_digest (hmacSha256 secret payload) sig

/-! ## Token codec theorems -/

/-- A concrete process secret, the bytes of `"secret"`, used in concrete
token computations. -/
def exSecret : Bytes := [115, 101, 99, 114, 101, 116]

/-! ## Data model (`app/models.py`) and store state

The relational store is modelled as in-memory lists of rows; SQLAlchemy
`query(...).first()` is `List.find?`, `.count()` is `List.length` of the
filter, a commit of a new row appends it. -/

/-- A `licenses` table row (`app/models.py`, class `License`).  Nullable
columns are `Option`; `created_at` is informational only and omitted. -/
structure License where
  id : Nat
  license_key : String
  owner : Option String
  plan : Option String
  expires_at : Option Int
  max_activations : Option Int
  active : Bool
deriving Repr, DecidableEq

/-- An `activations` table row (`app/models.py`, class `Activation`);
`created_at` is informational only and omitted. -/
structure Activation where
  id : Nat
  license_id : Nat
  device_id : String
  device_fingerprint : Option String
  ip : Option String
  last_seen : Int
deriving Repr, DecidableEq

/-- The persistent store: both tables plus the autoincrement counters. -/
structure DB where
  licenses : List License
  activations : List Activation
  next_act_id : Nat
  next_lic_id : Nat
deriving Repr, DecidableEq

/-- Python truthiness of an optional string: `None` and `""` are falsy. -/
def pyTruthy : Option String → Bool
  | none => false
  | some s => !(s == "")

/-- `db.query(License).filter(License.license_key == key).first()`. -/
def findLicense (db : DB) (key : String) : Option License :=
  db.licenses.find? (fun l => l.license_key == key)

/-- `db.query(Activation).filter(license_id == lid, device_id == dev).first()`. -/
def findActivation (db : DB) (lid : Nat) (dev : String) : Option Activation :=
  db.activations.find? (fun a => a.license_id == lid && a.device_id == dev)

/-- `db.query(Activation).filter(Activation.license_id == lid).count()`. -/
def countActs (db : DB) (lid : Nat) : Nat :=
  (db.activations.filter (fun a => a.license_id == lid)).length

/-- Rows for one license and one device id (the claim's per-device count). -/
def devCount (db : DB) (lid : Nat) (dev : String) : Nat :=
  (db.activations.filter (fun a => a.license_id == lid && a.device_id == dev)).length

/-- `lic.expires_at and lic.expires_at < datetime.utcnow()`. -/
def isExpired (lic : License) (now : Int) : Bool :=
  match lic.expires_at with
  | some e => decide (e < now)
  | none => false

/-! ## The activation engine (`app/routes/licenses.py`, `activate_license`)

The handler is split exactly at its only write: `activateCheck` is
everything up to and including the quota comparison (the read phase:
license lookup, status checks, existing-activation lookup, count query),
and `applyDecision` is the commit (the write phase: `db.add`/`db.commit`).
`activate` chains them immediately — that is the sequential handler — while
the concurrency analysis interleaves the phases of two requests. -/

/-- The license summary embedded in a successful response. -/
structure LicenseSummary where
  key : String
  owner : Option String
  plan : Option String
  expires_at : Option Int
deriving Repr, DecidableEq

def licSummary (lic : License) : LicenseSummary :=
  ⟨lic.license_key, lic.owner, lic.plan, lic.expires_at⟩

/-- The handler's JSON response.  `activation_token` records the arguments
of the `sign_activation(license_key, device_id)` call (the issuance time is
the request time). -/
structure ActivateResponse where
  valid : Bool
  message : String
  activation_token : Option (String × Option String)
  license : Option LicenseSummary
deriving Repr, DecidableEq

/-- What the read phase decided to do. -/
inductive Decision where
  | reject (message : String)
  | touch (activation_id : Nat) (lic : License) (device_id : Option String)
  | insert (lic : License) (device_id : Option String)
      (device_fingerprint ip : Option String)
deriving Repr, DecidableEq

/-- The existing-activation lookup: performed only when `device_id` is
truthy (`if device_id:` in the handler). -/
def lookupExisting (db : DB) (lic : License) (device_id : Option String) :
    Option Activation :=
  if pyTruthy device_id then findActivation db lic.id (device_id.getD "")
  else none

/-- `device_id or "unknown"`: the stored device id. -/
def storedDevice (device_id : Option String) : String :=
  if pyTruthy device_id then device_id.getD "" else "unknown"

/-- The read phase of `activate_license`: `none` models the
`HTTPException(400)` on a falsy `license_key`; otherwise the decision the
handler reaches before its first write.  The quota guard is
`max_act > 0 and act_count >= max_act` with `max_act = lic.max_activations or 0`. -/
def activateCheck (db : DB) (now : Int) (license_key : String)
    (device_id device_fingerprint ip : Option String) : Option Decision :=
  if license_key = "" then none
  else some (
    match findLicense db license_key with
    | none => .reject "License not found"
    | some lic =>
      if !lic.active then .reject "License disabled"
      else if isExpired lic now then .reject "License expired"
      else
        match lookupExisting db lic device_id with
        | some a => .touch a.id lic device_id
        | none =>
          let act_count := countActs db lic.id
          let max_act := lic.max_activations.getD 0
          if 0 < max_act ∧ (act_count : Int) ≥ max_act then
            .reject "Activation limit reached"
          else .insert lic device_id device_fingerprint ip)

/-- Update `last_seen` of one row (`existing.last_seen = utcnow; commit`). -/
def touchRow (db : DB) (aid : Nat) (now : Int) : DB :=
  {db with activations :=
    db.activations.map (fun a => if a.id = aid then {a with last_seen := now} else a)}

/-- The write phase: commit the decision and build the response. -/
def applyDecision (db : DB) (now : Int) : Decision → ActivateResponse × DB
  | .reject m => (⟨false, m, none, none⟩, db)
  | .touch aid lic dev =>
    (⟨true, "OK", some (lic.license_key, dev), some (licSummary lic)⟩,
     touchRow db aid now)
  | .insert lic dev fp ip =>
    (⟨true, "Activated", some (lic.license_key, dev), some (licSummary lic)⟩,
     {db with
       activations := db.activations ++
         [⟨db.next_act_id, lic.id, storedDevice dev, fp, ip, now⟩],
       next_act_id := db.next_act_id + 1})

/-- The whole sequential handler: read phase then immediate commit. -/
def activate (db : DB) (now : Int) (license_key : String)
    (device_id device_fingerprint ip : Option String) :
    Option (ActivateResponse × DB) :=
  (activateCheck db now license_key device_id device_fingerprint ip).map
    (applyDecision db now)

/-- One activation request. -/
structure Request where
  now : Int
  license_key : String
  device_id : Option String
  device_fingerprint : Option String
  ip : Option String
deriving Repr, DecidableEq

/-- The store after serving one request sequentially. -/
def runActivate (db : DB) (r : Request) : DB :=
  match activate db r.now r.license_key r.device_id r.device_fingerprint r.ip with
  | none => db
  | some (_, db2) => db2

/-- The store after serving a sequence of requests. -/
def runSeq (db : DB) (rs : List Request) : DB := rs.foldl runActivate db

/-- The same store with every license's `max_activations` replaced. -/
def setMaxAll (db : DB) (m : Option Int) : DB :=
  {db with licenses := db.licenses.map (fun l => {l with max_activations := m})}

/-! ## Admin operations -/

/-- `duration_plan` to expiry in `app/routes/admin.py` `create_license`:
a `timedelta(days := n)` is `n * 86400` seconds; an unknown plan is the
`HTTPException(400, "Unknown duration_plan")`. -/
def admin_duration_expiry (now : Int) (duration_plan : String) :
    Except String (Option Int) :=
  if duration_plan = "1month" then .ok (some (now + 30 * 86400))
  else if duration_plan = "3months" then .ok (some (now + 90 * 86400))
  else if duration_plan = "6months" then .ok (some (now + 180 * 86400))
  else if duration_plan = "lifetime" then .ok none
  else .error "Unknown duration_plan"

/-- The created-license summary returned by the admin endpoints. -/
structure CreatedLicense where
  license_key : String
  expires_at : Option Int
  max_activations : Option Int
deriving Repr, DecidableEq

/-- `create_license` of `app/routes/admin.py` (after admin auth): the
generated random key is the explicit parameter `key`; `plan` is stored as
the `duration_plan` string.  On an unknown plan the handler raises before
any write, so no license row is created. -/
def create_license (db : DB) (now : Int) (owner duration_plan : String)
    (max_activations : Int) (key : String) :
    Except String (CreatedLicense × DB) :=
  match admin_duration_expiry now duration_plan with
  | .error e => .error e
  | .ok expires_at =>
    .ok (⟨key, expires_at, some max_activations⟩,
      {db with
        licenses := db.licenses ++
          [⟨db.next_lic_id, key, some owner, some duration_plan, expires_at,
            some max_activations, true⟩],
        next_lic_id := db.next_lic_id + 1})

/-- `duration_plan` to expiry in `cli/create_license_cli.py`
`create_license`: the same mapping, `ValueError` on an unknown plan. -/
def cli_duration_expiry (now : Int) (duration_plan : String) :
    Except String (Option Int) :=
  if duration_plan = "1month" then .ok (some (now + 30 * 86400))
  else if duration_plan = "3months" then .ok (some (now + 90 * 86400))
  else if duration_plan = "6months" then .ok (some (now + 180 * 86400))
  else if duration_plan = "lifetime" then .ok none
  else .error "Unknown duration_plan"

/-- `create_license` of `cli/create_license_cli.py`: raises before the key
is generated or the session opened, so an unknown plan creates nothing. -/
def cli_create_license (db : DB) (now : Int) (owner plan duration_plan : String)
    (max_activations : Int) (key : String) : Except String DB :=
  match cli_duration_expiry now duration_plan with
  | .error e => .error e
  | .ok expiry =>
    .ok {db with
      licenses := db.licenses ++
        [⟨db.next_lic_id, key, some owner, some plan, expiry,
          some max_activations, true⟩],
      next_lic_id := db.next_lic_id + 1}

/-- `duration_plan` to expiry in `main.py` `admin_create_license`: the same
mapping for the four known plans, but an unknown plan falls into the
`# unknown -> no expiry` branch — no error. -/
def main_duration_expiry (now : Int) (duration_plan : String) : Option Int :=
  if duration_plan = "1month" then some (now + 30 * 86400)
  else if duration_plan = "3months" then some (now + 90 * 86400)
  else if duration_plan = "6months" then some (now + 180 * 86400)
  else if duration_plan = "lifetime" then none
  else none

/-- `admin_create_license` of `main.py` (after admin auth): always creates
the row, whatever `duration_plan` says. -/
def admin_create_license (db : DB) (now : Int) (owner plan duration_plan : String)
    (max_activations : Int) (key : String) : CreatedLicense × DB :=
  let expires_at := main_duration_expiry now duration_plan
  (⟨key, expires_at, some max_activations⟩,
   {db with
     licenses := db.licenses ++
       [⟨db.next_lic_id, key, some owner, some plan, expires_at,
         some max_activations, true⟩],
     next_lic_id := db.next_lic_id + 1})

/-- A license with quota 2 and an empty activation table. -/
def exLicU : License := ⟨1, "LU", none, none, none, some 2, true⟩

def exDbU : DB := ⟨[exLicU], [], 1, 2⟩

/-- A request for `exLicU` carrying no device id. -/
def exReqNoDev : Request := ⟨0, "LU", none, none, none⟩

/-- A saturated license: quota 1, one activation row held by `devA`. -/
def exLicSat : License := ⟨1, "LS", some "o", some "p", none, some 1, true⟩

def exActSat : Activation := ⟨1, 1, "devA", none, none, 0⟩

def exDbSat : DB := ⟨[exLicSat], [exActSat], 2, 2⟩

/-- A disabled license that is also expired and has quota to spare. -/
def exLicDis : License := ⟨1, "LD", none, none, some (-5), some 5, false⟩

def exDbDis : DB := ⟨[exLicDis], [], 1, 2⟩

/-- A license with `max_activations = -3` already holding two rows. -/
def exLicNeg : License := ⟨1, "LN", none, none, none, some (-3), true⟩

def exDbNeg : DB :=
  ⟨[exLicNeg], [⟨1, 1, "x", none, none, 0⟩, ⟨2, 1, "y", none, none, 0⟩], 3, 2⟩

/-! ## The quota race (C1)

`activateCheck` is the read phase of a request (everything before
`db.add(a)`), `applyDecision` its commit.  The handler holds no lock and the
schema declares no unique constraint, so nothing prevents the schedule in
which two requests both run their read phase against the same store state
before either commits.  The claim's scenario — `count == maxActivations - 1`
and two new devices — then admits both. -/

/-- A license with quota 1 and no activations: `count = maxActivations - 1`. -/
def raceLic : License := ⟨1, "R", none, none, none, some 1, true⟩

def raceDb : DB := ⟨[raceLic], [], 1, 2⟩

/-! ## Admin-operation theorems (C8) -/

def exDbAdmin : DB := ⟨[], [], 1, 1⟩

/-! ## Theorems -/

namespace Sha256

/-- The digest always has exactly 32 bytes. -/
theorem sha256_length (msg : Bytes) : (sha256 msg).length = 32 := by
  simp [sha256, wordBytes]

theorem wordBytes_lt_256 (n : Nat) : ∀ b ∈ wordBytes n, b < 256 := by
  intro b hb
  simp only [wordBytes, List.mem_cons, List.not_mem_nil, or_false] at hb
  rcases hb with h | h | h | h <;> subst h <;> exact Nat.mod_lt _ (by omega)

/-- Every digest byte is a byte value. -/
theorem sha256_lt_256 (msg : Bytes) : ∀ b ∈ sha256 msg, b < 256 := by
  simp only [sha256, List.forall_mem_append]
  exact ⟨⟨⟨⟨⟨⟨⟨wordBytes_lt_256 _, wordBytes_lt_256 _⟩, wordBytes_lt_256 _⟩,
    wordBytes_lt_256 _⟩, wordBytes_lt_256 _⟩, wordBytes_lt_256 _⟩,
    wordBytes_lt_256 _⟩, wordBytes_lt_256 _⟩

end Sha256

theorem hmacSha256_length (key msg : Bytes) : (hmacSha256 key msg).length = 32 :=
  Sha256.sha256_length _

theorem hmacSha256_lt_256 (key msg : Bytes) : ∀ b ∈ hmacSha256 key msg, b < 256 :=
  Sha256.sha256_lt_256 _

/-! ## Codec lemmas -/

theorem sextetOfB64Char_char : ∀ n < 64, sextetOfB64Char (b64CharOfSextet n) = some n := by
  decide

theorem b64CharOfSextet_ne_pad : ∀ n < 64, b64CharOfSextet n ≠ '=' := by
  decide

theorem isB64Sym_char (n : Nat) (h : n < 64) : isB64Sym (b64CharOfSextet n) = true := by
  simp [isB64Sym, sextetOfB64Char_char n h]

/-- Every character the encoder emits survives the decoder's filter. -/
theorem b64EncodeList_sym : ∀ (bs : Bytes), (∀ b ∈ bs, b < 256) →
    ∀ c ∈ b64EncodeList bs, isB64Sym c = true
  | [], _ => by simp [b64EncodeList]
  | [x], h => by
    have hx : x < 256 := h x (by simp)
    intro c hc
    simp only [b64EncodeList, List.mem_cons, List.not_mem_nil, or_false] at hc
    rcases hc with rfl | rfl | rfl | rfl
    · exact isB64Sym_char _ (by omega)
    · exact isB64Sym_char _ (by omega)
    · simp [isB64Sym]
    · simp [isB64Sym]
  | [x, y], h => by
    have hx : x < 256 := h x (by simp)
    have hy : y < 256 := h y (by simp)
    intro c hc
    simp only [b64EncodeList, List.mem_cons, List.not_mem_nil, or_false] at hc
    rcases hc with rfl | rfl | rfl | rfl
    · exact isB64Sym_char _ (by omega)
    · exact isB64Sym_char _ (by omega)
    · exact isB64Sym_char _ (by omega)
    · simp [isB64Sym]
  | x :: y :: z :: rest, h => by
    have hx : x < 256 := h x (by simp)
    have hy : y < 256 := h y (by simp)
    have hz : z < 256 := h z (by simp)
    have ih := b64EncodeList_sym rest
      (fun b hb => h b (by simp only [List.mem_cons]; tauto))
    intro c hc
    simp only [b64EncodeList, List.mem_cons] at hc
    rcases hc with rfl | rfl | rfl | rfl | hc
    · exact isB64Sym_char _ (by omega)
    · exact isB64Sym_char _ (by omega)
    · exact isB64Sym_char _ (by omega)
    · exact isB64Sym_char _ (by omega)
    · exact ih c hc

/-- Decoding inverts encoding on byte-valued input. -/
theorem b64DecodeQuads_encode : ∀ (bs : Bytes), (∀ b ∈ bs, b < 256) →
    b64DecodeQuads (b64EncodeList bs) = some bs
  | [], _ => rfl
  | [x], h => by
    have hx : x < 256 := h x (by simp)
    simp only [b64EncodeList, b64DecodeQuads,
      sextetOfB64Char_char (x / 4) (by omega),
      sextetOfB64Char_char (x % 4 * 16) (by omega), Option.some_bind]
    simp only [reduceIte, Option.some.injEq, List.cons.injEq, and_true]
    omega
  | [x, y], h => by
    have hx : x < 256 := h x (by simp)
    have hy : y < 256 := h y (by simp)
    simp only [b64EncodeList, b64DecodeQuads,
      sextetOfB64Char_char (x / 4) (by omega),
      sextetOfB64Char_char (x % 4 * 16 + y / 16) (by omega),
      sextetOfB64Char_char (y % 16 * 4) (by omega),
      if_neg (b64CharOfSextet_ne_pad (y % 16 * 4) (by omega)), Option.some_bind]
    simp only [reduceIte, Option.some.injEq, List.cons.injEq, and_true]
    constructor <;> omega
  | x :: y :: z :: rest, h => by
    have hx : x < 256 := h x (by simp)
    have hy : y < 256 := h y (by simp)
    have hz : z < 256 := h z (by simp)
    have ih := b64DecodeQuads_encode rest
      (fun b hb => h b (by simp only [List.mem_cons]; tauto))
    simp only [b64EncodeList, b64DecodeQuads,
      sextetOfB64Char_char (x / 4) (by omega),
      sextetOfB64Char_char (x % 4 * 16 + y / 16) (by omega),
      sextetOfB64Char_char (y % 16 * 4 + z / 64) (by omega),
      sextetOfB64Char_char (z % 64) (by omega),
      if_neg (b64CharOfSextet_ne_pad (y % 16 * 4 + z / 64) (by omega)),
      if_neg (b64CharOfSextet_ne_pad (z % 64) (by omega)),
      ih, Option.some_bind]
    simp only [Option.some.injEq, List.cons.injEq, and_true, true_and]
    refine ⟨by omega, by omega, by omega⟩

/-- `urlsafe_b64decode` inverts `urlsafe_b64encode` on byte-valued input. -/
theorem urlsafe_decode_encode (bs : Bytes) (h : ∀ b ∈ bs, b < 256) :
    urlsafe_b64decode (b64EncodeList bs) = some bs := by
  unfold urlsafe_b64decode
  rw [List.filter_eq_self.mpr (b64EncodeList_sym bs h), b64DecodeQuads_encode bs h]

theorem rsplitTilde_eq_none (l : Bytes) (h : 126 ∉ l) : rsplitTilde l = none := by
  induction l with
  | nil => rfl
  | cons x xs ih =>
    simp only [List.mem_cons, not_or] at h
    simp only [rsplitTilde, ih h.2]
    rw [if_neg (fun hx => h.1 hx.symm)]

/-- With no `~` in the suffix, the split lands exactly at the last `~`. -/
theorem rsplitTilde_append (p s : Bytes) (hs : 126 ∉ s) :
    rsplitTilde (p ++ 126 :: s) = some (p, s) := by
  induction p with
  | nil => simp [rsplitTilde, rsplitTilde_eq_none s hs]
  | cons x xs ih => simp [rsplitTilde, ih]

theorem natDigitsAux_lt_256 (fuel : Nat) : ∀ (t : Nat), ∀ b ∈ natDigitsAux fuel t, b < 256 := by
  induction fuel with
  | zero => intro t b hb; simp [natDigitsAux] at hb
  | succ fuel ih =>
    intro t b hb
    rw [natDigitsAux] at hb
    by_cases ht : t < 10
    · rw [if_pos ht, List.mem_singleton] at hb
      omega
    · rw [if_neg ht, List.mem_append] at hb
      rcases hb with hm | hm
      · exact ih (t / 10) b hm
      · rw [List.mem_singleton] at hm
        omega

theorem natDigits_lt_256 (t : Nat) : ∀ b ∈ natDigits t, b < 256 :=
  natDigitsAux_lt_256 (t + 1) t

theorem payloadBytes_lt_256 (k : Bytes) (d : Option Bytes) (t : Nat)
    (hk : ∀ b ∈ k, b < 256) (hd : ∀ b ∈ d.getD [], b < 256) :
    ∀ b ∈ payloadBytes k d t, b < 256 := by
  intro b hb
  simp only [payloadBytes, List.mem_append, List.mem_cons] at hb
  rcases hb with (h | h | h) | (h | h)
  · exact hk b h
  · omega
  · exact hd b h
  · omega
  · exact natDigits_lt_256 t b h

/-- The whole signed blob (payload, separator, digest) is byte-valued. -/
theorem signedBlob_lt_256 (secret k : Bytes) (d : Option Bytes) (t : Nat)
    (hk : ∀ b ∈ k, b < 256) (hd : ∀ b ∈ d.getD [], b < 256) :
    ∀ b ∈ payloadBytes k d t ++ 126 :: hmacSha256 secret (payloadBytes k d t),
      b < 256 := by
  intro b hb
  rcases List.mem_append.mp hb with h | h
  · exact payloadBytes_lt_256 k d t hk hd b h
  · rcases List.mem_cons.mp h with h | h
    · omega
    · exact hmacSha256_lt_256 _ _ b h

/-- C2, amendment: the sign/verify round trip succeeds whenever the raw
HMAC digest contains no `~` byte (`126`).  `verify` splits at the *last*
`~` of the decoded blob, which is inside the signature whenever the digest
itself contains `126`, so the digest being `~`-free is exactly what makes
the split recover the payload. -/
theorem sign_verify_roundtrip_of_no_tilde_digest (secret license_key : Bytes)
    (device_id : Option Bytes) (t : Nat)
    (hk : ∀ b ∈ license_key, b < 256) (hd : ∀ b ∈ device_id.getD [], b < 256)
    (hsig : 126 ∉ hmacSha256 secret (payloadBytes license_key device_id t)) :
    verify_activation_token secret (sign_activation secret license_key device_id t)
      = true := by
  unfold sign_activation verify_activation_token
  rw [urlsafe_decode_encode _ (signedBlob_lt_256 secret license_key device_id t hk hd)]
  simp only [rsplitTilde_append _ _ hsig]
  simp [compare_digest]

/-- C2, counterexample: with secret `b"secret"`, license key `b"K"`, device
`b"D"` and issuance time `6`, the digest contains byte `126`, the split
lands inside the signature, and the token `sign` just produced fails
`verify`. -/
theorem sign_verify_roundtrip_counterexample :
    verify_activation_token exSecret (sign_activation exSecret [75] (some [68]) 6)
      = false := by
  rfl

/-- C2, witness for the amended round trip at a concrete `~`-free digest. -/
theorem sign_verify_roundtrip_witness :
    verify_activation_token exSecret (sign_activation exSecret [75] (some [68]) 0)
      = true :=
  sign_verify_roundtrip_of_no_tilde_digest exSecret [75] (some [68]) 0
    (by decide) (by decide) (by decide)

/-- C7: `verify_activation_token` is a total function (the embedding of the
`try/except` body), and on every malformed input — input whose decode
raises, or whose decoded bytes contain no `~` separator — it returns
`false`. -/
theorem verify_false_on_malformed (secret : Bytes) (token : List Char)
    (h : urlsafe_b64decode token = none ∨
         ∃ raw, urlsafe_b64decode token = some raw ∧ rsplitTilde raw = none) :
    verify_activation_token secret token = false := by
  unfold verify_activation_token
  rcases h with h | ⟨raw, h1, h2⟩
  · simp only [h]
  · simp only [h1, h2]

/-- C7, witness: the empty string, a truncated base64 string, a `~`-free
decodable string, and a junk string all verify `false`. -/
theorem verify_false_on_malformed_witness :
    verify_activation_token exSecret [] = false ∧
    verify_activation_token exSecret ['A'] = false ∧
    verify_activation_token exSecret "AAAA".toList = false ∧
    verify_activation_token exSecret "~!%".toList = false :=
  ⟨verify_false_on_malformed exSecret [] (Or.inr ⟨[], by decide, by decide⟩),
   verify_false_on_malformed exSecret ['A'] (Or.inl (by decide)),
   verify_false_on_malformed exSecret "AAAA".toList
     (Or.inr ⟨[0, 0, 0], by decide, by decide⟩),
   verify_false_on_malformed exSecret "~!%".toList
     (Or.inr ⟨[], by decide, by decide⟩)⟩

/-- C9: the token is the URL-safe base64 encoding of the UTF-8 payload
bytes `licenseKey|deviceId-or-empty|t`, then the single byte `~` (`126`),
then the raw HMAC-SHA256 digest of the payload — which is exactly 32 bytes —
and every character of the token is URL-safe base64 material. -/
theorem sign_token_format (secret license_key : Bytes) (device_id : Option Bytes)
    (t : Nat)
    (hk : ∀ b ∈ license_key, b < 256) (hd : ∀ b ∈ device_id.getD [], b < 256) :
    sign_activation secret license_key device_id t =
      b64EncodeList (payloadBytes license_key device_id t ++
        126 :: hmacSha256 secret (payloadBytes license_key device_id t)) ∧
    payloadBytes license_key device_id t =
      license_key ++ 124 :: (device_id.getD []) ++ 124 :: natDigits t ∧
    (hmacSha256 secret (payloadBytes license_key device_id t)).length = 32 ∧
    (∀ c ∈ sign_activation secret license_key device_id t, isB64Sym c = true) := by
  refine ⟨rfl, rfl, hmacSha256_length _ _, ?_⟩
  exact b64EncodeList_sym _ (signedBlob_lt_256 secret license_key device_id t hk hd)

/-- C9, witness at a concrete secret, key, device and time. -/
theorem sign_token_format_witness :
    (hmacSha256 exSecret (payloadBytes [75] (some [68]) 0)).length = 32 ∧
    (∀ c ∈ sign_activation exSecret [75] (some [68]) 0, isB64Sym c = true) :=
  ⟨(sign_token_format exSecret [75] (some [68]) 0 (by decide) (by decide)).2.2.1,
   (sign_token_format exSecret [75] (some [68]) 0 (by decide) (by decide)).2.2.2⟩

/-! ## Engine lemmas -/

theorem devCount_find_none (db : DB) (lid : Nat) (dev : String)
    (h : findActivation db lid dev = none) : devCount db lid dev = 0 := by
  unfold findActivation at h
  rw [List.find?_eq_none] at h
  unfold devCount
  rw [List.filter_eq_nil.mpr h]
  rfl

theorem length_filter_map_invariant {α : Type} (f : α → α) (p : α → Bool)
    (l : List α) (h : ∀ a, p (f a) = p a) :
    ((l.map f).filter p).length = (l.filter p).length := by
  induction l with
  | nil => rfl
  | cons a l ih =>
    simp only [List.map_cons, List.filter_cons, h a]
    by_cases hp : p a
    · simp [hp, ih]
    · simp [hp, ih]

theorem devCount_touchRow (db : DB) (aid : Nat) (now : Int) (lid : Nat)
    (dev : String) :
    devCount (touchRow db aid now) lid dev = devCount db lid dev := by
  unfold devCount touchRow
  exact length_filter_map_invariant _ _ _
    (fun a => by by_cases h : a.id = aid <;> simp [h])

theorem devCount_insert (db : DB) (row : Activation) (lid : Nat) (dev : String) :
    devCount {db with activations := db.activations ++ [row],
                      next_act_id := db.next_act_id + 1} lid dev =
      devCount db lid dev +
        (if row.license_id == lid && row.device_id == dev then 1 else 0) := by
  unfold devCount
  simp only [List.filter_append, List.length_append]
  by_cases h : row.license_id == lid && row.device_id == dev
  · simp [List.filter_cons, h]
  · simp [List.filter_cons, h]

/-- One sequential request preserves "at most one row per provided device":
the only way the handler inserts a row with a device id other than
`"unknown"` is after `findActivation` came back empty for it. -/
theorem runActivate_devCount_le (db : DB) (r : Request) (lid : Nat) (dev : String)
    (hdev : dev ≠ "unknown") (h : devCount db lid dev ≤ 1) :
    devCount (runActivate db r) lid dev ≤ 1 := by
  unfold runActivate activate activateCheck
  by_cases hk : r.license_key = ""
  · simpa [hk] using h
  · rw [if_neg hk]
    cases hf : findLicense db r.license_key with
    | none => simpa [applyDecision] using h
    | some lic =>
      by_cases hact : lic.active
      · by_cases hexp : isExpired lic r.now
        · simpa [hact, hexp, applyDecision] using h
        · cases hl : lookupExisting db lic r.device_id with
          | some a =>
            simpa [hact, hexp, hl, applyDecision, devCount_touchRow] using h
          | none =>
            by_cases hg : 0 < lic.max_activations.getD 0 ∧
                lic.max_activations.getD 0 ≤ (countActs db lic.id : Int)
            · simpa [hact, hexp, hl, hg, applyDecision] using h
            · simp only [hact, hexp, hl, if_neg hg]
              simp [applyDecision]
              rw [devCount_insert]
              by_cases hm : lic.id = lid ∧ storedDevice r.device_id = dev
              · obtain ⟨hm1, hm2⟩ := hm
                have htr : pyTruthy r.device_id = true := by
                  by_contra hh
                  have hu : storedDevice r.device_id = "unknown" := by
                    unfold storedDevice
                    rw [if_neg (by simpa using hh)]
                  exact hdev (hm2 ▸ hu)
                have hfa : findActivation db lic.id (r.device_id.getD "") = none := by
                  unfold lookupExisting at hl
                  rwa [if_pos htr] at hl
                have hsd : storedDevice r.device_id = r.device_id.getD "" := by
                  unfold storedDevice
                  rw [if_pos htr]
                have h0 : devCount db lid dev = 0 := by
                  rw [← hm1, ← hm2, hsd]
                  exact devCount_find_none db lic.id _ hfa
                rw [h0]
                simp [hm1, hm2]
              · have hfalse :
                    ((⟨db.next_act_id, lic.id, storedDevice r.device_id,
                       r.device_fingerprint, r.ip, r.now⟩ : Activation).license_id == lid &&
                     (⟨db.next_act_id, lic.id, storedDevice r.device_id,
                       r.device_fingerprint, r.ip, r.now⟩ : Activation).device_id == dev) = false := by
                  simp only [Bool.and_eq_false_iff, beq_eq_false_iff_ne]
                  by_cases h1 : lic.id = lid
                  · exact Or.inr (fun h2 => hm ⟨h1, h2⟩)
                  · exact Or.inl h1
                rw [hfalse]
                simpa using h
      · simpa [hact, applyDecision] using h

/-! ## Activation-engine theorems -/

/-- C3, amendment: starting from a store with no activations, any sequence
of sequential `activate` calls leaves at most one Activation row per
(license, deviceId) pair for every *provided* device id.  The `"unknown"`
sentinel is excluded: when `device_id` is absent the handler skips the
existing-row lookup entirely and inserts a fresh `"unknown"` row each
time. -/
theorem at_most_one_activation_per_device (db0 : DB) (h0 : db0.activations = [])
    (rs : List Request) (lid : Nat) (dev : String) (hdev : dev ≠ "unknown") :
    devCount (runSeq db0 rs) lid dev ≤ 1 := by
  have hstart : devCount db0 lid dev ≤ 1 := by
    unfold devCount
    rw [h0]
    simp
  clear h0
  unfold runSeq
  induction rs generalizing db0 with
  | nil => simpa using hstart
  | cons r rs ih =>
    rw [List.foldl_cons]
    exact ih _ (runActivate_devCount_le db0 r lid dev hdev hstart)

/-- C3, counterexample: two activations without a device id both insert,
leaving two rows whose `device_id` is the `"unknown"` sentinel — the
claimed per-device uniqueness (which includes the sentinel) fails. -/
theorem duplicate_unknown_rows_counterexample :
    devCount (runSeq exDbU [exReqNoDev, exReqNoDev]) 1 "unknown" = 2 := by
  rfl

/-- C3, witness: two re-activations of the same provided device id leave a
single row for it. -/
theorem at_most_one_activation_per_device_witness :
    exDbU.activations = [] ∧ ("devA" : String) ≠ "unknown" ∧
    devCount (runSeq exDbU
      [⟨0, "LU", some "devA", none, none⟩, ⟨1, "LU", some "devA", none, none⟩])
      1 "devA" ≤ 1 :=
  ⟨rfl, by decide,
   at_most_one_activation_per_device exDbU rfl
     [⟨0, "LU", some "devA", none, none⟩, ⟨1, "LU", some "devA", none, none⟩]
     1 "devA" (by decide)⟩

/-- C4: when the license is found, active and unexpired and the provided
device already has an Activation row, `activate` answers `valid = true`
with message `OK` and a fresh token, updates only that row's `last_seen`,
and creates no new row — with no hypothesis on the activation count, so
quota saturation is irrelevant. -/
theorem reactivation_always_succeeds (db : DB) (now : Int) (key dev : String)
    (device_fingerprint ip : Option String) (lic : License) (a : Activation)
    (hk : key ≠ "") (hfind : findLicense db key = some lic)
    (hact : lic.active = true) (hexp : isExpired lic now = false)
    (hdev : dev ≠ "")
    (hex : findActivation db lic.id dev = some a) :
    activate db now key (some dev) device_fingerprint ip =
      some (⟨true, "OK", some (lic.license_key, some dev), some (licSummary lic)⟩,
        touchRow db a.id now) ∧
    (touchRow db a.id now).activations.length = db.activations.length := by
  have hl : lookupExisting db lic (some dev) = some a := by
    unfold lookupExisting pyTruthy
    simpa [hdev] using hex
  constructor
  · unfold activate activateCheck
    rw [if_neg hk, hfind]
    simp [hact, hexp, hl, applyDecision]
  · unfold touchRow
    simp

/-- C5: a valid license, a device with no existing row, a positive quota
already met — the handler answers `Activation limit reached` before its
first write, so the returned store is the input store, unchanged. -/
theorem limit_reached_no_side_effects (db : DB) (now : Int) (key : String)
    (device_id device_fingerprint ip : Option String) (lic : License)
    (hk : key ≠ "") (hfind : findLicense db key = some lic)
    (hact : lic.active = true) (hexp : isExpired lic now = false)
    (hex : lookupExisting db lic device_id = none)
    (hmax : 0 < lic.max_activations.getD 0)
    (hcnt : (countActs db lic.id : Int) ≥ lic.max_activations.getD 0) :
    activate db now key device_id device_fingerprint ip =
      some (⟨false, "Activation limit reached", none, none⟩, db) := by
  unfold activate activateCheck
  rw [if_neg hk, hfind]
  simp [hact, hexp, hex, hmax, hcnt, applyDecision]

/-- C6: `active = false` answers `License disabled` with the store
untouched, under no hypothesis about expiry or quota — the disabled check
is decided before either. -/
theorem disabled_before_expiry_and_quota (db : DB) (now : Int) (key : String)
    (device_id device_fingerprint ip : Option String) (lic : License)
    (hk : key ≠ "") (hfind : findLicense db key = some lic)
    (hact : lic.active = false) :
    activate db now key device_id device_fingerprint ip =
      some (⟨false, "License disabled", none, none⟩, db) := by
  unfold activate activateCheck
  rw [if_neg hk, hfind]
  simp [hact, applyDecision]

/-- C4, witness: `devA` re-activates on the saturated store. -/
theorem reactivation_always_succeeds_witness :
    activate exDbSat 7 "LS" (some "devA") none none =
      some (⟨true, "OK", some ("LS", some "devA"), some (licSummary exLicSat)⟩,
        touchRow exDbSat 1 7) ∧
    (touchRow exDbSat 1 7).activations.length = exDbSat.activations.length :=
  reactivation_always_succeeds exDbSat 7 "LS" "devA" none none exLicSat exActSat
    (by decide) rfl rfl rfl (by decide) rfl

/-- C5, witness: a second device on the saturated store is turned away and
the store is returned unchanged. -/
theorem limit_reached_no_side_effects_witness :
    activate exDbSat 7 "LS" (some "devB") none none =
      some (⟨false, "Activation limit reached", none, none⟩, exDbSat) :=
  limit_reached_no_side_effects exDbSat 7 "LS" (some "devB") none none exLicSat
    (by decide) rfl rfl rfl rfl (by decide) (by decide)

/-- C6, witness: the license is disabled *and* expired *and* has free
quota; the answer is still `License disabled`. -/
theorem disabled_before_expiry_and_quota_witness :
    isExpired exLicDis 0 = true ∧
    activate exDbDis 0 "LD" (some "a") none none =
      some (⟨false, "License disabled", none, none⟩, exDbDis) :=
  ⟨by decide,
   disabled_before_expiry_and_quota exDbDis 0 "LD" (some "a") none none exLicDis
     (by decide) rfl rfl⟩

theorem findLicense_setMaxAll (db : DB) (key : String) (m : Option Int) :
    findLicense (setMaxAll db m) key =
      (findLicense db key).map (fun l => {l with max_activations := m}) := by
  unfold findLicense setMaxAll
  induction db.licenses with
  | nil => rfl
  | cons l ls ih =>
    simp only [List.map_cons, List.find?]
    by_cases hk : l.license_key == key
    · simp [hk]
    · simpa [hk] using ih

/-- With `max_activations or 0` non-positive the quota guard is false, so a
valid license and a new device always insert, whatever the current count. -/
theorem activate_insert_of_nonpos_max (db : DB) (now : Int) (key : String)
    (device_id device_fingerprint ip : Option String) (lic : License)
    (hk : key ≠ "") (hfind : findLicense db key = some lic)
    (hnp : lic.max_activations.getD 0 ≤ 0)
    (hact : lic.active = true) (hexp : isExpired lic now = false)
    (hex : lookupExisting db lic device_id = none) :
    activate db now key device_id device_fingerprint ip =
      some (⟨true, "Activated", some (lic.license_key, device_id),
             some (licSummary lic)⟩,
        {db with
          activations := db.activations ++
            [⟨db.next_act_id, lic.id, storedDevice device_id,
              device_fingerprint, ip, now⟩],
          next_act_id := db.next_act_id + 1}) := by
  unfold activate activateCheck
  rw [if_neg hk, hfind]
  have hgf : ¬(0 < lic.max_activations.getD 0 ∧
      lic.max_activations.getD 0 ≤ (countActs db lic.id : Int)) :=
    fun hc => absurd hc.1 (by omega)
  simp [hact, hexp, hex, hgf, applyDecision]

/-- C10: a negative `maxActivations` never reaches the limit branch — the
guard demands `max_act > 0` — so a valid license admits every new device
with no hypothesis on the current count, and the response and the
activation table after the call are exactly those produced when the same
store carries `maxActivations = 0` instead. -/
theorem negative_max_activations_unlimited (db : DB) (now : Int) (key : String)
    (device_id device_fingerprint ip : Option String) (lic : License)
    (hk : key ≠ "") (hfind : findLicense db key = some lic)
    (hneg : lic.max_activations.getD 0 < 0)
    (hact : lic.active = true) (hexp : isExpired lic now = false)
    (hex : lookupExisting db lic device_id = none) :
    activate db now key device_id device_fingerprint ip =
      some (⟨true, "Activated", some (lic.license_key, device_id),
             some (licSummary lic)⟩,
        {db with
          activations := db.activations ++
            [⟨db.next_act_id, lic.id, storedDevice device_id,
              device_fingerprint, ip, now⟩],
          next_act_id := db.next_act_id + 1}) ∧
    (activate (setMaxAll db (some 0)) now key device_id device_fingerprint ip).map
        (fun p => (p.1, p.2.activations)) =
      (activate db now key device_id device_fingerprint ip).map
        (fun p => (p.1, p.2.activations)) := by
  have h1 := activate_insert_of_nonpos_max db now key device_id
    device_fingerprint ip lic hk hfind (le_of_lt hneg) hact hexp hex
  refine ⟨h1, ?_⟩
  have hfind2 : findLicense (setMaxAll db (some 0)) key =
      some {lic with max_activations := some 0} := by
    rw [findLicense_setMaxAll, hfind]
    rfl
  have h2 := activate_insert_of_nonpos_max (setMaxAll db (some 0)) now key
    device_id device_fingerprint ip {lic with max_activations := some 0}
    hk hfind2 (by simp) hact hexp hex
  rw [h1, h2]
  rfl

/-- C10, witness: with `max = -3` and two rows already present, a third
device is admitted, exactly as with `max = 0`. -/
theorem negative_max_activations_unlimited_witness :
    activate exDbNeg 9 "LN" (some "z") none none =
      some (⟨true, "Activated", some ("LN", some "z"), some (licSummary exLicNeg)⟩,
        {exDbNeg with
          activations := exDbNeg.activations ++ [⟨3, 1, "z", none, none, 9⟩],
          next_act_id := 4}) ∧
    (activate (setMaxAll exDbNeg (some 0)) 9 "LN" (some "z") none none).map
        (fun p => (p.1, p.2.activations)) =
      (activate exDbNeg 9 "LN" (some "z") none none).map
        (fun p => (p.1, p.2.activations)) :=
  negative_max_activations_unlimited exDbNeg 9 "LN" (some "z") none none exLicNeg
    (by decide) rfl (by decide) rfl rfl rfl

/-- C1: both concurrent requests pass the quota check against the initial
store (each read phase sees `count = 0 < 1`), both commits are accepted, and
the license with `maxActivations = 1` ends up with two persisted rows. -/
theorem activate_race_quota_exceeded :
    activateCheck raceDb 0 "R" (some "a") none none =
      some (.insert raceLic (some "a") none none) ∧
    activateCheck raceDb 0 "R" (some "b") none none =
      some (.insert raceLic (some "b") none none) ∧
    raceLic.max_activations = some 1 ∧
    (applyDecision raceDb 0 (.insert raceLic (some "a") none none)).1.valid = true ∧
    (applyDecision
      (applyDecision raceDb 0 (.insert raceLic (some "a") none none)).2 0
      (.insert raceLic (some "b") none none)).1.valid = true ∧
    countActs
      (applyDecision
        (applyDecision raceDb 0 (.insert raceLic (some "a") none none)).2 0
        (.insert raceLic (some "b") none none)).2 1 = 2 := by
  refine ⟨rfl, rfl, rfl, rfl, rfl, rfl⟩

/-- C8, counterexample: `admin_create_license` of `main.py`, given the
unknown plan `"2weeks"`, does not fail — it creates the license, with no
expiry. -/
theorem main_create_unknown_plan_counterexample :
    (admin_create_license exDbAdmin 0 "o" "lifetime" "2weeks" 3 "KEY").2.licenses.length
      = 1 ∧
    (admin_create_license exDbAdmin 0 "o" "lifetime" "2weeks" 3 "KEY").1.expires_at
      = none :=
  ⟨rfl, rfl⟩

/-- C8, amendment: all three implementations map the four known plans to
no expiry / +30 days / +90 days / +180 days; on any other plan the app
route and the CLI fail with `Unknown duration_plan` and create nothing,
while the `main.py` variant silently creates the license with no expiry. -/
theorem create_license_duration_plans (db : DB) (now : Int) (owner plan key : String)
    (maxa : Int) (p : String)
    (hp : p ≠ "1month" ∧ p ≠ "3months" ∧ p ≠ "6months" ∧ p ≠ "lifetime") :
    (admin_duration_expiry now "lifetime" = .ok none ∧
     admin_duration_expiry now "1month" = .ok (some (now + 2592000)) ∧
     admin_duration_expiry now "3months" = .ok (some (now + 7776000)) ∧
     admin_duration_expiry now "6months" = .ok (some (now + 15552000))) ∧
    (cli_duration_expiry now "lifetime" = .ok none ∧
     cli_duration_expiry now "1month" = .ok (some (now + 2592000)) ∧
     cli_duration_expiry now "3months" = .ok (some (now + 7776000)) ∧
     cli_duration_expiry now "6months" = .ok (some (now + 15552000))) ∧
    (main_duration_expiry now "lifetime" = none ∧
     main_duration_expiry now "1month" = some (now + 2592000) ∧
     main_duration_expiry now "3months" = some (now + 7776000) ∧
     main_duration_expiry now "6months" = some (now + 15552000)) ∧
    create_license db now owner p maxa key = .error "Unknown duration_plan" ∧
    cli_create_license db now owner plan p maxa key = .error "Unknown duration_plan" ∧
    ((admin_create_license db now owner plan p maxa key).2.licenses =
       db.licenses ++
         [⟨db.next_lic_id, key, some owner, some plan, none, some maxa, true⟩] ∧
     (admin_create_license db now owner plan p maxa key).1.expires_at = none) := by
  obtain ⟨h1, h3, h6, hl⟩ := hp
  refine ⟨⟨rfl, rfl, rfl, rfl⟩, ⟨rfl, rfl, rfl, rfl⟩, ⟨rfl, rfl, rfl, rfl⟩,
          ?_, ?_, ?_, ?_⟩
  · unfold create_license admin_duration_expiry
    rw [if_neg h1, if_neg h3, if_neg h6, if_neg hl]
  · unfold cli_create_license cli_duration_expiry
    rw [if_neg h1, if_neg h3, if_neg h6, if_neg hl]
  · unfold admin_create_license main_duration_expiry
    rw [if_neg h1, if_neg h3, if_neg h6, if_neg hl]
  · unfold admin_create_license main_duration_expiry
    rw [if_neg h1, if_neg h3, if_neg h6, if_neg hl]

/-- C8, witness at the unknown plan `"2weeks"`. -/
theorem create_license_duration_plans_witness :
    create_license exDbAdmin 0 "o" "2weeks" 3 "KEY" =
      .error "Unknown duration_plan" ∧
    cli_create_license exDbAdmin 0 "o" "plan" "2weeks" 3 "KEY" =
      .error "Unknown duration_plan" :=
  ⟨((create_license_duration_plans exDbAdmin 0 "o" "plan" "KEY" 3 "2weeks"
      (by decide)).2.2.2.1),
   ((create_license_duration_plans exDbAdmin 0 "o" "plan" "KEY" 3 "2weeks"
      (by decide)).2.2.2.2.1)⟩

end LicenseServer

